import Mathlib

/-!
Verification of the election-provider primitives crate
(src/primitives/election-providers/src/lib.rs).

The crate declares two traits, ElectionDataProvider and ElectionProvider,
and its doc example instantiates them with a concrete data provider
(data_provider::Module) and a concrete reference election provider
(election_provider::SomeElectionProvider).  We embed those concrete
definitions here, passing the data-provider snapshot (the values of
targets(), voters() and desired_targets()) explicitly where the Rust code
reads it through the trait.
-/

namespace ElectionProviders

/-- AccountId, which the crate's example fixes to u64. -/
abbrev AccountId := Nat

/-- VoteWeight, re-exported from sp_npos_elections (u64 in Substrate). -/
abbrev VoteWeight := Nat

/-- ExtendedBalance, re-exported from sp_npos_elections (u128 in Substrate). -/
abbrev ExtendedBalance := Nat

/-- sp_npos_elections::Support: the total backing stake of one winner plus
the list of (voter, contributed stake) pairs producing it. -/
structure Support (A : Type) where
  total : ExtendedBalance
  voters : List (A × ExtendedBalance)
deriving Repr, DecidableEq

/-- Support::default() (the derived Default): zero total, empty voter list. -/
def Support.default (A : Type) : Support A := ⟨0, []⟩

/-- sp_npos_elections::Supports: a vector of (target, Support) pairs,
the target-major election outcome. -/
abbrev Supports (A : Type) := List (A × Support A)

/-- One immutable data-provider snapshot: the values that targets(),
voters() and desired_targets() return during one election cycle. -/
structure Snapshot where
  targets : List AccountId
  voters : List (AccountId × VoteWeight × List AccountId)
  desired_targets : Nat
deriving Repr, DecidableEq

/-- Rust Option::ok_or: Some a ↦ Ok a, None ↦ Err e. -/
def ok_or {α ε : Type} (o : Option α) (e : ε) : Except ε α :=
  match o with
  | some a => .ok a
  | none => .error e

namespace SomeElectionProvider

/-- SomeElectionProvider::elect from the crate's doc example:
T::DataProvider::targets().first().map(|winner| vec![(*winner,
Support::default())]).ok_or(()), with the data provider's snapshot passed
explicitly. -/
def elect (s : Snapshot) : Except Unit (Supports AccountId) :=
  ok_or ((s.targets.head?).map (fun winner => [(winner, Support.default AccountId)])) ()

/-- SomeElectionProvider::ongoing from the crate's doc example: literally false.
The provider is stateless, so this value is what ongoing() returns at every
point of every call sequence. -/
def ongoing : Bool := false

end SomeElectionProvider

namespace Module

/-- data_provider::Module::desired_targets from the crate's doc example: 1. -/
def desired_targets : Nat := 1

/-- data_provider::Module::voters from the crate's doc example:
Default::default(), i.e. the empty vector. -/
def voters : List (AccountId × VoteWeight × List AccountId) := []

/-- data_provider::Module::targets from the crate's doc example: vec![10, 20, 30]. -/
def targets : List AccountId := [10, 20, 30]

/-- data_provider::Module::feasibility_check_assignment from the crate's doc
example: returns true unconditionally. -/
def feasibility_check_assignment (P : Type) (who : AccountId)
    (distribution : List (AccountId × P)) : Bool :=
  true

/-- data_provider::Module::next_election_prediction from the crate's doc
example: returns 0. -/
def next_election_prediction (now : Nat) : Nat := 0

/-- The snapshot that data_provider::Module exposes. -/
def snapshot : Snapshot := ⟨targets, voters, desired_targets⟩

end Module

/-- Stake that voter who contributes inside one Support entry. -/
def contributionIn (who : AccountId) (sup : Support AccountId) : Nat :=
  ((sup.voters.filter (fun v => v.1 == who)).map Prod.snd).sum

/-- Stake that voter who contributes summed across all Support entries of
an outcome. -/
def totalContribution (who : AccountId) (out : Supports AccountId) : Nat :=
  (out.map (fun p => contributionIn who p.2)).sum

/-- Modelled from the spec: the crate under src/ only declares the
ElectionProvider trait; no stateful implementation exists there.  The
Idle → Collecting → Ready → Idle state machine is taken from the spec's
state-machine description for stateful providers. -/
inductive ProviderState where
  | Idle : ProviderState
  | Collecting : ProviderState
  | Ready : Supports AccountId → ProviderState
deriving DecidableEq

/-- Modelled from the spec: the error split the spec requires a caller to
be able to make on elect()'s error: "not ready yet" versus a terminal
computation failure. -/
inductive ElectError where
  | notReady : ElectError
  | terminal : ElectError
deriving DecidableEq

namespace StatefulProvider

/-- Modelled from the spec: ongoing() of a stateful provider returns true
exactly in the Collecting state, false in Idle and Ready. -/
def ongoing : ProviderState → Bool
  | .Collecting => true
  | _ => false

/-- Modelled from the spec: elect() of a stateful provider.  In Idle it
synchronously computes the outcome from the snapshot (the stateless-
equivalent path); in Collecting it fails with the "not ready" error and
leaves the state unchanged; in Ready it returns the stored outcome and
transitions back to Idle.  The winner computation itself is out of scope,
so it is a parameter. -/
def elect (compute : Snapshot → Supports AccountId) (s : Snapshot) :
    ProviderState → Except ElectError (Supports AccountId) × ProviderState
  | .Idle => (.ok (compute s), .Idle)
  | .Collecting => (.error .notReady, .Collecting)
  | .Ready o => (.ok o, .Idle)

end StatefulProvider

/-- Approval list recorded for voter who in a voters snapshot (empty when
the voter is absent). -/
def approvalsOf (voters : List (AccountId × VoteWeight × List AccountId))
    (who : AccountId) : List AccountId :=
  match voters.find? (fun v => v.1 == who) with
  | some v => v.2.2
  | none => []

/-- Modelled from the spec: feasibility_check_assignment of a data provider
"where approvals are authoritative" — the distribution is legal iff every
target it names appears in the voter's approval list from the voters
snapshot.  No such provider exists under src/ (the example Module returns
true unconditionally); the trait declaration and the spec's description of
the check are the authority. -/
def authoritative_feasibility_check_assignment (P : Type)
    (voters : List (AccountId × VoteWeight × List AccountId))
    (who : AccountId) (distribution : List (AccountId × P)) : Bool :=
  distribution.all (fun d => decide (d.1 ∈ approvalsOf voters who))

theorem elect_nil (v : List (AccountId × VoteWeight × List AccountId)) (d : Nat) :
    SomeElectionProvider.elect ⟨[], v, d⟩ = .error () := rfl

theorem elect_cons (x : AccountId) (xs : List AccountId)
    (v : List (AccountId × VoteWeight × List AccountId)) (d : Nat) :
    SomeElectionProvider.elect ⟨x :: xs, v, d⟩ =
      .ok [(x, Support.default AccountId)] := rfl

/-- Claim C1, as stated, is false: at the snapshot with no targets and
desired count 0 (so desired_targets() ≥ number of targets), elect() of the
reference SomeElectionProvider returns an error, not a successful outcome
containing every target. -/
theorem C1_counterexample :
    ¬ (∀ s : Snapshot, s.targets.length ≤ s.desired_targets →
        ∃ out, SomeElectionProvider.elect s = .ok out ∧
          ∀ t ∈ s.targets, (out.map Prod.fst).count t = 1) := by
  intro h
  obtain ⟨out, hout, -⟩ := h ⟨[], [], 0⟩ (by decide)
  rw [elect_nil] at hout
  exact Except.noConfusion hout

/-- Claim C1, amended: for every snapshot with desired_targets() ≥ number of
targets, elect() errors when the targets list is empty; otherwise it returns
the single pair (first target, default Support), and that outcome contains
every target of the snapshot exactly once precisely when every target equals
the first one. -/
theorem C1_amended (s : Snapshot) (h : s.targets.length ≤ s.desired_targets) :
    (s.targets = [] → SomeElectionProvider.elect s = .error ()) ∧
    (∀ x xs, s.targets = x :: xs →
      SomeElectionProvider.elect s = .ok [(x, Support.default AccountId)] ∧
      ((∀ t ∈ s.targets, (([(x, Support.default AccountId)] : Supports AccountId).map
          Prod.fst).count t = 1) ↔ ∀ t ∈ s.targets, t = x)) := by
  obtain ⟨ts, vs, d⟩ := s
  simp only at h ⊢
  constructor
  · intro ht
    subst ht
    exact elect_nil vs d
  · intro x xs hx
    subst hx
    refine ⟨elect_cons x xs vs d, ?_⟩
    have hcount : ∀ t : AccountId,
        (([(x, Support.default AccountId)] : Supports AccountId).map Prod.fst).count t = 1
          ↔ t = x := by
      intro t
      simp [List.count_cons]
      exact eq_comm
    constructor
    · intro hall t ht
      exact (hcount t).mp (hall t ht)
    · intro hall t ht
      exact (hcount t).mpr (hall t ht)

/-- Witness for C1_amended at the snapshot with one target 5 and desired
count 1. -/
theorem C1_amended_witness :
    SomeElectionProvider.elect ⟨[5], [], 1⟩ = .ok [(5, Support.default AccountId)] :=
  ((C1_amended ⟨[5], [], 1⟩ (by decide)).2 5 [] rfl).1

/-- Claim C2: for every snapshot and every outcome elect() returns
successfully, every Support entry's recorded total equals the sum of the
stakes contributed by its voter list (both are zero for the reference
provider's default Support). -/
theorem C2_support_sum (s : Snapshot) (out : Supports AccountId)
    (h : SomeElectionProvider.elect s = .ok out) :
    ∀ p ∈ out, (p.2.voters.map Prod.snd).sum = p.2.total := by
  obtain ⟨ts, vs, d⟩ := s
  cases ts with
  | nil => rw [elect_nil] at h; exact Except.noConfusion h
  | cons x xs =>
    rw [elect_cons] at h
    have hout : out = [(x, Support.default AccountId)] := (Except.ok.inj h).symm
    subst hout
    intro p hp
    have hp' : p = (x, Support.default AccountId) := by simpa using hp
    subst hp'
    rfl

/-- Witness for C2_support_sum at the doc example's own snapshot. -/
theorem C2_witness :
    (((Support.default AccountId).voters.map Prod.snd).sum
      = (Support.default AccountId).total) :=
  C2_support_sum ⟨[10, 20, 30], [], 1⟩ [(10, Support.default AccountId)] rfl
    (10, Support.default AccountId) (by simp)

/-- Claim C3: for every snapshot and every outcome elect() returns
successfully, each voter of the snapshot contributes, summed across all
Support entries of the outcome, no more than its recorded stake weight. -/
theorem C3_voter_budget (s : Snapshot) (out : Supports AccountId)
    (h : SomeElectionProvider.elect s = .ok out)
    (who : AccountId) (w : VoteWeight) (approvals : List AccountId)
    (hv : (who, w, approvals) ∈ s.voters) :
    totalContribution who out ≤ w := by
  obtain ⟨ts, vs, d⟩ := s
  cases ts with
  | nil => rw [elect_nil] at h; exact Except.noConfusion h
  | cons x xs =>
    rw [elect_cons] at h
    have hout : out = [(x, Support.default AccountId)] := (Except.ok.inj h).symm
    subst hout
    have hz : totalContribution who [(x, Support.default AccountId)] = 0 := rfl
    rw [hz]
    exact Nat.zero_le w

/-- Witness for C3_voter_budget at a snapshot with one voter of stake 10. -/
theorem C3_witness :
    totalContribution 1 [(10, Support.default AccountId)] ≤ 10 :=
  C3_voter_budget ⟨[10], [(1, 10, [10])], 1⟩ [(10, Support.default AccountId)] rfl
    1 10 [10] (by simp)

/-- Claim C4: the reference SomeElectionProvider is stateless and its
ongoing() is the constant false, so ongoing() returns false at every point
of every call sequence — before any elect() call and immediately after any
successful one. -/
theorem C4_ongoing_false : SomeElectionProvider.ongoing = false := rfl

/-- Claim C5: for the spec-modelled stateful provider, in every state where
ongoing() returns true (exactly the Collecting state), elect() returns the
"not ready" error — neither a successful outcome nor the terminal error —
and leaves the provider's state unchanged. -/
theorem C5_not_ready (compute : Snapshot → Supports AccountId) (s : Snapshot)
    (st : ProviderState) (h : StatefulProvider.ongoing st = true) :
    StatefulProvider.elect compute s st = (.error .notReady, st) := by
  cases st with
  | Idle => exact Bool.noConfusion h
  | Collecting => rfl
  | Ready o => exact Bool.noConfusion h

/-- Witness for C5_not_ready in the Collecting state. -/
theorem C5_witness :
    StatefulProvider.elect (fun _ => []) ⟨[], [], 0⟩ .Collecting
      = (.error .notReady, .Collecting) :=
  C5_not_ready (fun _ => []) ⟨[], [], 0⟩ .Collecting rfl

/-- Claim C6: for the spec-modelled approvals-authoritative data provider,
feasibility_check_assignment(who, distribution) returns false whenever the
distribution names a target absent from who's approval list in the voters
snapshot. -/
theorem C6_infeasible (P : Type)
    (voters : List (AccountId × VoteWeight × List AccountId))
    (who target : AccountId) (p : P) (distribution : List (AccountId × P))
    (hmem : (target, p) ∈ distribution)
    (habs : target ∉ approvalsOf voters who) :
    authoritative_feasibility_check_assignment P voters who distribution = false := by
  rw [authoritative_feasibility_check_assignment, List.all_eq_false]
  exact ⟨(target, p), hmem, by simpa using habs⟩

/-- Witness for C6_infeasible: voter 1 approves only target 5, and a
distribution naming target 7 is rejected. -/
theorem C6_witness :
    authoritative_feasibility_check_assignment Unit [(1, 10, [5])] 1 [(7, ())] = false :=
  C6_infeasible Unit [(1, 10, [5])] 1 7 () [(7, ())] (by simp) (by decide)

/-- Claim C7, as stated, is false: at the snapshot with targets [10, 20, 30]
and desired count 0, elect() of the reference SomeElectionProvider returns
the non-empty outcome [(10, default Support)], not the empty sequence. -/
theorem C7_counterexample :
    ¬ (∀ s : Snapshot, s.desired_targets = 0 →
        SomeElectionProvider.elect s = .ok []) := by
  intro h
  have hc := h ⟨[10, 20, 30], [], 0⟩ rfl
  rw [elect_cons] at hc
  have : ([(10, Support.default AccountId)] : Supports AccountId) = [] :=
    Except.ok.inj hc
  exact List.noConfusion this

/-- Claim C7, amended: elect() of the reference provider ignores
desired_targets(); for every snapshot with desired count 0 it still errors
when the targets list is empty and otherwise returns the single pair
(first target, default Support), not the empty sequence. -/
theorem C7_amended (s : Snapshot) (h : s.desired_targets = 0) :
    (s.targets = [] → SomeElectionProvider.elect s = .error ()) ∧
    (∀ x xs, s.targets = x :: xs →
      SomeElectionProvider.elect s = .ok [(x, Support.default AccountId)]) := by
  obtain ⟨ts, vs, d⟩ := s
  constructor
  · intro ht
    simp only at ht
    subst ht
    exact elect_nil vs 0
  · intro x xs hx
    simp only at hx
    subst hx
    exact elect_cons x xs vs 0

/-- Witness for C7_amended at the snapshot with one target 3 and desired
count 0. -/
theorem C7_amended_witness :
    SomeElectionProvider.elect ⟨[3], [], 0⟩ = .ok [(3, Support.default AccountId)] :=
  (C7_amended ⟨[3], [], 0⟩ rfl).2 3 [] rfl

/-- Claim C8, as stated, is false in its checkable part: at the doc
example's own snapshot (empty voters, targets [10, 20, 30], desired count 1)
elect() returns the non-empty winner set [(10, default Support)], and
SomeElectionProvider documents no fallback outcome it could be instead. -/
theorem C8_counterexample :
    ¬ (∀ s : Snapshot, s.voters = [] → s.targets ≠ [] → s.desired_targets = 1 →
        SomeElectionProvider.elect s = .ok []) := by
  intro h
  have hc := h ⟨[10, 20, 30], [], 1⟩ rfl (by simp) rfl
  rw [elect_cons] at hc
  have : ([(10, Support.default AccountId)] : Supports AccountId) = [] :=
    Except.ok.inj hc
  exact List.noConfusion this

/-- Claim C8, amended: for every snapshot with empty voters, non-empty
targets and desired count 1, elect() is a total function (so it cannot
panic) and returns successfully the single pair (first target, default
Support with zero backing and no voters) — a non-empty winner set. -/
theorem C8_amended (s : Snapshot) (hv : s.voters = []) (hd : s.desired_targets = 1)
    (x : AccountId) (xs : List AccountId) (ht : s.targets = x :: xs) :
    SomeElectionProvider.elect s = .ok [(x, Support.default AccountId)] := by
  obtain ⟨ts, vs, d⟩ := s
  simp only at ht
  subst ht
  exact elect_cons x xs vs d

/-- Witness for C8_amended at the doc example's own snapshot. -/
theorem C8_amended_witness :
    SomeElectionProvider.elect ⟨[10, 20, 30], [], 1⟩
      = .ok [(10, Support.default AccountId)] :=
  C8_amended ⟨[10, 20, 30], [], 1⟩ rfl rfl 10 [20, 30] rfl

/-- Claim C9: elect() is a pure function of the data-provider snapshot (the
Rust code reads only the data provider's pure accessors), so two calls made
against the same snapshot return identical outcome sequences, including
identical order. -/
theorem C9_deterministic (s₁ s₂ : Snapshot) (h : s₁ = s₂) :
    SomeElectionProvider.elect s₁ = SomeElectionProvider.elect s₂ := by
  rw [h]

/-- Witness for C9_deterministic at the doc example's snapshot. -/
theorem C9_witness :
    SomeElectionProvider.elect ⟨[10, 20, 30], [], 1⟩
      = SomeElectionProvider.elect ⟨[10, 20, 30], [], 1⟩ :=
  C9_deterministic ⟨[10, 20, 30], [], 1⟩ ⟨[10, 20, 30], [], 1⟩ rfl

/-- Claim C10: elect() of the reference provider errors exactly when
targets() is empty; on a non-empty targets list it returns exactly one
pair, (first target, Support with zero total and empty voter list); and the
result does not depend on voters() or desired_targets(). -/
theorem C10_reference_behavior :
    (∀ s : Snapshot, SomeElectionProvider.elect s = .error () ↔ s.targets = []) ∧
    (∀ (x : AccountId) (xs : List AccountId)
        (v : List (AccountId × VoteWeight × List AccountId)) (d : Nat),
      SomeElectionProvider.elect ⟨x :: xs, v, d⟩ = .ok [(x, ⟨0, []⟩)]) ∧
    (∀ (t : List AccountId) (v₁ v₂ : List (AccountId × VoteWeight × List AccountId))
        (d₁ d₂ : Nat),
      SomeElectionProvider.elect ⟨t, v₁, d₁⟩ = SomeElectionProvider.elect ⟨t, v₂, d₂⟩) := by
  refine ⟨?_, ?_, ?_⟩
  · intro s
    obtain ⟨ts, vs, d⟩ := s
    cases ts with
    | nil => simp [elect_nil]
    | cons x xs =>
      rw [elect_cons]
      simp
  · intro x xs v d
    exact elect_cons x xs v d
  · intro t v₁ v₂ d₁ d₂
    cases t with
    | nil => rw [elect_nil, elect_nil]
    | cons x xs => rw [elect_cons, elect_cons]

end ElectionProviders
